import Mathlib

/-!
Verification of the background job-processing module generated by
`setup_ytdl_app.py` (the `tasks.py` content in `create_enhanced_tasks`,
together with the `DownloadJob` / `DownloadStats` models in
`create_enhanced_models`).  The Python code is shallowly embedded: jobs and
statistics records are structures, the processing pipeline is a pure function
parameterised by the outcomes of the external stages (yt-dlp, HTTP, transcript
API), and the concurrent observable behaviour (worker writes racing the
user-facing cancel endpoint) is a labelled transition system.
-/

/-- The `DownloadJob.Status` text choices from the generated `models.py`. -/
inductive Status where
  | pending
  | running
  | done
  | error
  | retrying
  | cancelled
deriving DecidableEq, Repr

/-- The fields of the generated `DownloadJob` model that the job-processing
code reads or writes.  Character fields default to the empty string and
nullable fields to `none`, as in the Django model.  Timestamps are abstracted
to natural numbers. -/
structure Job where
  id : Nat
  user : Nat
  requested_types : String
  status : Status
  progress_pct : Int
  message : String
  error_details : String
  retry_count : Nat
  finished_at : Option Nat
  path_mp3 : String
  size_mp3 : Option Int
  checksum_mp3 : String
  path_mp4 : String
  size_mp4 : Option Int
  checksum_mp4 : String
  path_txt : String
  size_txt : Option Int
  path_txt_plain : String
  size_txt_plain : Option Int
  thumbnail_path : String
  thumbnail_size : Option Int
deriving DecidableEq, Repr

/-- The counters of the generated `DownloadStats` model. -/
structure Stats where
  total_jobs : Nat
  successful_jobs : Nat
  failed_jobs : Nat
  total_files_size : Int
  last_download : Option Nat
  first_download : Option Nat
deriving DecidableEq, Repr

/-- A freshly created `DownloadJob` row: Django model defaults
(`status=PENDING`, `progress_pct=0`, `retry_count=0`, blank text fields,
null sizes and timestamps). -/
def initJob (id user : Nat) (rt : String) : Job :=
  { id := id, user := user, requested_types := rt, status := Status.pending,
    progress_pct := 0, message := "", error_details := "", retry_count := 0,
    finished_at := none, path_mp3 := "", size_mp3 := none, checksum_mp3 := "",
    path_mp4 := "", size_mp4 := none, checksum_mp4 := "", path_txt := "",
    size_txt := none, path_txt_plain := "", size_txt_plain := none,
    thumbnail_path := "", thumbnail_size := none }

/-- A freshly created `DownloadStats` row (all counters at their defaults). -/
def initStats : Stats :=
  { total_jobs := 0, successful_jobs := 0, failed_jobs := 0,
    total_files_size := 0, last_download := none, first_download := none }

/-- Python substring containment: `needle in hay` on `str` values, used by the
task code on the comma-separated `requested_types` field. -/
def containsSub (hay needle : String) : Bool :=
  (List.range (hay.data.length + 1)).any
    (fun i => decide ((hay.data.drop i).take needle.data.length = needle.data))

/-- `want_mp3 = 'MP3' in job.requested_types`. -/
def wantMp3 (rt : String) : Bool := containsSub rt "MP3"

/-- `want_mp4 = 'MP4' in job.requested_types`. -/
def wantMp4 (rt : String) : Bool := containsSub rt "MP4"

/-- `want_tx = 'TRANSCRIPT' in job.requested_types`. -/
def wantTranscript (rt : String) : Bool := containsSub rt "TRANSCRIPT"

/-- `want_thumbnail = 'THUMBNAIL' in job.requested_types`. -/
def wantThumbnail (rt : String) : Bool := containsSub rt "THUMBNAIL"

/-- The `steps` list built in `_process_job` from the requested output kinds
(mp3, then mp4, then transcript). -/
def stepsOf (rt : String) : List String :=
  (if wantMp3 rt then ["mp3"] else []) ++
  (if wantMp4 rt then ["mp4"] else []) ++
  (if wantTranscript rt then ["transcript"] else [])

/-- Python `int(...)` on a real number: truncation toward zero. -/
def pyInt (q : ℚ) : ℤ :=
  if q < 0 then ⌈q⌉ else ⌊q⌋

/-- `_progress_update(job, pct, msg)`:
`pct = max(0, min(99, int(pct)))`, then writes `progress_pct` and `message`
(the `updated_at` touch is not tracked). -/
def progress_update (j : Job) (pct : ℚ) (msg : String) : Job :=
  { j with progress_pct := max 0 (min 99 (pyInt pct)), message := msg }

/-- The first write of `_process_job`:
`_set(job, status=RUNNING, message='Starting...', progress_pct=1)`. -/
def startRunning (j : Job) : Job :=
  { j with status := Status.running, message := "Starting...", progress_pct := 1 }

/-- The terminal write on the successful-completion path of `_process_job`. -/
def setDone (j : Job) (now : Nat) : Job :=
  { j with status := Status.done, progress_pct := 100,
           message := "Download completed successfully", finished_at := some now }

/-- The terminal write on the empty-request path of `_process_job`
(`if not steps: ...`). -/
def setEmptyDone (j : Job) (now : Nat) : Job :=
  { j with status := Status.done, progress_pct := 100,
           message := "Completed (no media files requested)", finished_at := some now }

/-- The write performed when an attempt raised and retries remain:
status RETRYING, progress 0, retry counter incremented, error recorded. -/
def setRetrying (j : Job) (e : String) (delay maxRetries : Nat) : Job :=
  { j with status := Status.retrying, progress_pct := 0,
           message := "Retrying in " ++ toString delay ++ "s... (attempt " ++
             toString (j.retry_count + 1) ++ "/" ++ toString maxRetries ++ ")",
           error_details := e, retry_count := j.retry_count + 1 }

/-- The terminal write when retries are exhausted: status ERROR, progress 100,
message with the error detail truncated to 200 characters, finished stamped. -/
def setError (j : Job) (e : String) (maxRetries now : Nat) : Job :=
  { j with status := Status.error, progress_pct := 100,
           message := "Failed after " ++ toString maxRetries ++ " attempts: " ++
             e.take 200 ++ "...",
           error_details := e, finished_at := some now }

/-- The per-job write of `cancel_jobs`. -/
def setCancelled (j : Job) (now : Nat) : Job :=
  { j with status := Status.cancelled, progress_pct := 100,
           message := "Cancelled by user", finished_at := some now }

/-- The per-job reset of `retry_failed_jobs`. -/
def resetForRetry (j : Job) : Job :=
  { j with status := Status.pending, progress_pct := 0,
           message := "Queued for retry", error_details := "", retry_count := 0,
           finished_at := none }

/-- `DownloadJob.file_size_total`: sums the five output sizes, skipping falsy
(`None` or `0`) values exactly as the Python loop does. -/
def truthyAdd (total : Int) (size : Option Int) : Int :=
  match size with
  | none => total
  | some s => if s = 0 then total else total + s

/-- The `file_size_total` property of `DownloadJob`. -/
def file_size_total (j : Job) : Int :=
  [j.size_mp3, j.size_mp4, j.size_txt, j.size_txt_plain,
   j.thumbnail_size].foldl truthyAdd 0

/-- The storage rescan in `_update_user_stats`: total size over the user's
jobs whose status is already DONE. -/
def userStorage (user : Nat) (store : List Job) : Int :=
  ((store.filter (fun j => decide (j.user = user ∧ j.status = Status.done))).map
    file_size_total).sum

/-- `_update_user_stats(user, success)`: increments `total_jobs` and one of
`successful_jobs` / `failed_jobs`, touches the activity timestamps, and
recomputes `total_files_size` by a full rescan of the user's DONE jobs in the
given store. -/
def update_user_stats (user : Nat) (success : Bool) (store : List Job)
    (stats : Stats) (now : Nat) : Stats :=
  { stats with
      total_jobs := stats.total_jobs + 1,
      successful_jobs :=
        if success then stats.successful_jobs + 1 else stats.successful_jobs,
      failed_jobs :=
        if success then stats.failed_jobs else stats.failed_jobs + 1,
      last_download := some now,
      first_download :=
        match stats.first_download with
        | none => some now
        | some t => some t,
      total_files_size := userStorage user store }

/-- One callback payload delivered to `hook` by the downloader.
`total_bytes` models `d.get('total_bytes') or d.get('total_bytes_estimate')
or 0` (so `0` stands for an unknown total), and `percent_str` models
`d.get("_percent_str", "").strip()`. -/
structure HookInput where
  hstatus : String
  total_bytes : Nat
  downloaded_bytes : Nat
  percent_str : String
deriving DecidableEq, Repr

/-- `pct_local = int(done * 100 / total) if total else 50` inside `hook`. -/
def hookPctLocal (total done : Nat) : ℤ :=
  if total ≠ 0 then pyInt ((done * 100 : ℚ) / (total : ℚ)) else 50

/-- The progress value handed to `_progress_update` by the downloading branch
of `hook`: `cur_base + math.floor(pct_local * step_weight / 100)`. -/
def hookArg (curBase stepWeight : ℚ) (total done : Nat) : ℚ :=
  curBase + (⌊(hookPctLocal total done : ℚ) * stepWeight / 100⌋ : ℤ)

/-- The `hook` closure of `_process_job` applied to one callback.  The
`finished` branch uses `int(step_weight * 0.9)` (the constant `0.9` is modelled
as the rational 9/10). -/
def applyHook (curBase stepWeight : ℚ) (d : HookInput) (j : Job) : Job :=
  if d.hstatus = "downloading" then
    progress_update j (hookArg curBase stepWeight d.total_bytes d.downloaded_bytes)
      ("Downloading " ++ d.percent_str)
  else if d.hstatus = "finished" then
    progress_update j (curBase + (pyInt (stepWeight * (9 / 10)) : ℤ)) "Post-processing..."
  else j

/-- The environment of one `_process_job` attempt: the outcomes of the
external stages.  `Except.error e` models the stage raising an exception with
message `e`; artifact results carry the (relative path, byte size, checksum)
data written to the job when the produced file exists.  Thumbnail and
transcript stages swallow their own exceptions, so their results are plain
options; `txFailMsg` is the message the transcript stage records when no
transcript is obtained, and `txLang` the language tag of a saved one. -/
structure AttemptEnv where
  metaRes : Except String Unit
  thumbRes : Option (String × Int)
  mp3Hooks : List HookInput
  mp3Res : Except String (Option (String × Int × String))
  mp4Hooks : List HookInput
  mp4Res : Except String (Option (String × Int × String))
  txRes : Option (String × Int × String × Int)
  txFailMsg : String
  txLang : String

/-- How one attempt of `_process_job` ended: the empty-request early return,
full pipeline completion, or an exception reaching the outer handler. -/
inductive AttemptExit where
  | emptyDone
  | completed
  | raised (e : String)
deriving DecidableEq, Repr

/-- The thumbnail block of `_process_job` (runs before the `steps` check;
`_download_thumbnail` swallows its own errors). -/
def thumbStage (env : AttemptEnv) (j : Job) : Job :=
  if wantThumbnail j.requested_types then
    let j1 := progress_update j 10 "Downloading thumbnail..."
    match env.thumbRes with
    | some a => { j1 with thumbnail_path := a.1, thumbnail_size := some a.2 }
    | none => j1
  else j

/-- The MP3 block of `_process_job`: progress note, downloader callbacks,
then either an exception or the artifact write when the file exists. -/
def mp3Stage (env : AttemptEnv) (curBase stepWeight : ℚ) (j : Job) :
    Job × Option String :=
  if wantMp3 j.requested_types then
    let j1 := progress_update j (curBase + 1) "Preparing audio download..."
    let j2 := env.mp3Hooks.foldl (fun a d => applyHook curBase stepWeight d a) j1
    match env.mp3Res with
    | Except.error e => (j2, some e)
    | Except.ok none => (j2, none)
    | Except.ok (some a) =>
        ({ j2 with path_mp3 := a.1, size_mp3 := some a.2.1,
                   checksum_mp3 := a.2.2 }, none)
  else (j, none)

/-- The MP4 block of `_process_job`, analogous to the MP3 block. -/
def mp4Stage (env : AttemptEnv) (curBase stepWeight : ℚ) (j : Job) :
    Job × Option String :=
  if wantMp4 j.requested_types then
    let j1 := progress_update j (curBase + 1) "Preparing video download..."
    let j2 := env.mp4Hooks.foldl (fun a d => applyHook curBase stepWeight d a) j1
    match env.mp4Res with
    | Except.error e => (j2, some e)
    | Except.ok none => (j2, none)
    | Except.ok (some a) =>
        ({ j2 with path_mp4 := a.1, size_mp4 := some a.2.1,
                   checksum_mp4 := a.2.2 }, none)
  else (j, none)

/-- The transcript block of `_process_job`.  Every exception inside it is
caught and only recorded in `message`, so the block never raises; on success
it writes the two transcript artifacts and a final progress note.  The
intermediate probing progress writes (only clamped progress/message touches)
are not tracked here; they are covered by the transition-system model. -/
def txStage (env : AttemptEnv) (curBase stepWeight : ℚ) (j : Job) : Job :=
  if wantTranscript j.requested_types then
    let j1 := progress_update j (curBase + 1) "Fetching transcript..."
    match env.txRes with
    | some a =>
        let j2 := { j1 with path_txt := a.1, size_txt := some a.2.1,
                            path_txt_plain := a.2.2.1,
                            size_txt_plain := some a.2.2.2 }
        progress_update j2 (curBase + (pyInt (stepWeight * (9 / 10)) : ℤ))
          ("Transcript saved (" ++ env.txLang ++ ")")
    | none => { j1 with message := env.txFailMsg }
  else j

/-- One attempt of `_process_job` up to (but excluding) the final
stats-plus-DONE writes: the RUNNING write, the metadata fetch, the thumbnail
block, the empty-request early return, and the three producer blocks with
`cur_base` advancing by `step_weight = 80 / len(steps)` after each requested
stage starting from the reserved base 20. -/
def runAttempt (env : AttemptEnv) (now : Nat) (job0 : Job) : Job × AttemptExit :=
  let j := startRunning job0
  let j := progress_update j 5 "Fetching video information..."
  match env.metaRes with
  | Except.error e => (j, AttemptExit.raised e)
  | Except.ok _ =>
    let j := thumbStage env j
    if (stepsOf j.requested_types).isEmpty then
      (setEmptyDone j now, AttemptExit.emptyDone)
    else
      let stepWeight : ℚ := 80 / ((stepsOf j.requested_types).length : ℚ)
      let curBase : ℚ := 20
      match mp3Stage env curBase stepWeight j with
      | (j1, some e) => (j1, AttemptExit.raised e)
      | (j1, none) =>
        let curBase := if wantMp3 j1.requested_types then curBase + stepWeight else curBase
        match mp4Stage env curBase stepWeight j1 with
        | (j2, some e) => (j2, AttemptExit.raised e)
        | (j2, none) =>
          let curBase := if wantMp4 j2.requested_types then curBase + stepWeight else curBase
          (txStage env curBase stepWeight j2, AttemptExit.completed)

/-- The job store and statistics state seen by one `_process_job` run:
the job being processed, the other persisted jobs, and the processing user's
`DownloadStats` row (lazily created with defaults by `get_or_create`). -/
structure Sys where
  job : Job
  others : List Job
  stats : Stats
deriving Repr

/-- `_process_job` with its retry recursion, driven by one `AttemptEnv` per
attempt.  On completion the stats update runs while the job row still holds
the attempt state (status RUNNING), then the DONE write follows; the
empty-request early return performs no stats update; a raising attempt either
re-enqueues with RETRYING (when `retry_count < max_retries`, after reading the
refreshed `retry_count`) or records the failure outcome and the ERROR write. -/
def processJob (maxRetries retryDelay now : Nat) :
    List AttemptEnv → Sys → Sys
  | [], s => s
  | env :: rest, s =>
    match runAttempt env now s.job with
    | (j, AttemptExit.emptyDone) => { s with job := j }
    | (j, AttemptExit.completed) =>
        let stats2 := update_user_stats j.user true (j :: s.others) s.stats now
        { s with job := setDone j now, stats := stats2 }
    | (j, AttemptExit.raised e) =>
        if j.retry_count < maxRetries then
          processJob maxRetries retryDelay now rest
            { s with job := setRetrying j e retryDelay maxRetries }
        else
          let stats2 := update_user_stats j.user false (j :: s.others) s.stats now
          { s with job := setError j e maxRetries now, stats := stats2 }

/-- The queryset predicate of `retry_failed_jobs`: owned by the user, listed,
and currently ERROR or CANCELLED. -/
def retryMatch (user : Nat) (jobIds : List Nat) (j : Job) : Bool :=
  decide (j.user = user) && decide (j.id ∈ jobIds) &&
    (decide (j.status = Status.error) || decide (j.status = Status.cancelled))

/-- `retry_failed_jobs(user, job_ids)` over a job store: resets each matching
job and enqueues its id; returns the new store, the enqueued ids, and the
count `len(jobs)`. -/
def retry_failed_jobs (user : Nat) (jobIds : List Nat) (store : List Job) :
    List Job × List Nat × Nat :=
  let matched := store.filter (retryMatch user jobIds)
  (store.map (fun j => if retryMatch user jobIds j then resetForRetry j else j),
   matched.map (fun j => j.id), matched.length)

/-- The queryset predicate of `cancel_jobs`: owned by the user, listed, and
currently PENDING, RUNNING or RETRYING. -/
def cancelMatch (user : Nat) (jobIds : List Nat) (j : Job) : Bool :=
  decide (j.user = user) && decide (j.id ∈ jobIds) &&
    (decide (j.status = Status.pending) || decide (j.status = Status.running) ||
     decide (j.status = Status.retrying))

/-- `cancel_jobs(user, job_ids)` over a job store: overwrites each matching
job with the CANCELLED record and returns the new store with `len(jobs)`. -/
def cancel_jobs (user : Nat) (jobIds : List Nat) (now : Nat)
    (store : List Job) : List Job × Nat :=
  ((store.map (fun j => if cancelMatch user jobIds j then setCancelled j now else j)),
   (store.filter (cancelMatch user jobIds)).length)

/-- The observable state of one job together with its executor bookkeeping:
`queued` counts `_executor.submit(_process_job, job_id)` calls not yet picked
up by a worker, and `active` records whether a worker is currently inside
`_process_job` for this job. -/
structure MState where
  job : Job
  queued : Nat
  active : Bool
deriving DecidableEq, Repr

/-- The atomic observable operations on a job record: executor submission,
a worker starting `_process_job`, the progress writes (plain and via the
download hook), the four run-terminating writes, and the external
`cancel_jobs` / `retry_failed_jobs` writes. -/
inductive Op where
  | enqueue
  | startRun
  | progressWrite (pct : ℚ) (msg : String)
  | hookWrite (curBase stepWeight : ℚ) (d : HookInput)
  | finishDone (now : Nat)
  | finishEmpty (now : Nat)
  | markRetrying (e : String) (delay maxRetries : Nat)
  | markError (e : String) (maxRetries now : Nat)
  | cancel (now : Nat)
  | retryReset

/-- One atomic `_set` transition, labelled by the code site performing it.
Faithful to the source: `startRun` (the first write of `_process_job`) has no
status guard, progress writes require only that a worker run is active, and
`cancel` requires the `cancel_jobs` queryset condition on the current status. -/
inductive Step : MState → Op → MState → Prop where
  | enqueue (s : MState) :
      Step s Op.enqueue { s with queued := s.queued + 1 }
  | startRun (s : MState) (h : 0 < s.queued) :
      Step s Op.startRun
        { job := startRunning s.job, queued := s.queued - 1, active := true }
  | progressWrite (s : MState) (pct : ℚ) (msg : String) (h : s.active = true) :
      Step s (Op.progressWrite pct msg)
        { s with job := progress_update s.job pct msg }
  | hookWrite (s : MState) (curBase stepWeight : ℚ) (d : HookInput)
      (h : s.active = true) :
      Step s (Op.hookWrite curBase stepWeight d)
        { s with job := applyHook curBase stepWeight d s.job }
  | finishDone (s : MState) (now : Nat) (h : s.active = true) :
      Step s (Op.finishDone now)
        { s with job := setDone s.job now, active := false }
  | finishEmpty (s : MState) (now : Nat) (h : s.active = true)
      (hsteps : (stepsOf s.job.requested_types).isEmpty = true) :
      Step s (Op.finishEmpty now)
        { s with job := setEmptyDone s.job now, active := false }
  | markRetrying (s : MState) (e : String) (delay maxRetries : Nat)
      (h : s.active = true) (hrc : s.job.retry_count < maxRetries) :
      Step s (Op.markRetrying e delay maxRetries)
        { job := setRetrying s.job e delay maxRetries,
          queued := s.queued + 1, active := false }
  | markError (s : MState) (e : String) (maxRetries now : Nat)
      (h : s.active = true) (hrc : ¬ s.job.retry_count < maxRetries) :
      Step s (Op.markError e maxRetries now)
        { s with job := setError s.job e maxRetries now, active := false }
  | cancel (s : MState) (now : Nat)
      (h : s.job.status = Status.pending ∨ s.job.status = Status.running ∨
           s.job.status = Status.retrying) :
      Step s (Op.cancel now) { s with job := setCancelled s.job now }
  | retryReset (s : MState)
      (h : s.job.status = Status.error ∨ s.job.status = Status.cancelled) :
      Step s Op.retryReset
        { s with job := resetForRetry s.job, queued := s.queued + 1 }

/-- Some step with some label. -/
def StepAny (a b : MState) : Prop := ∃ op, Step a op b

/-- Reachability along the observable transitions. -/
def ReachableFrom (a b : MState) : Prop := Relation.ReflTransGen StepAny a b

/-- The terminal statuses of the state machine. -/
def isTerminal (st : Status) : Bool :=
  decide (st = Status.done) || decide (st = Status.error) ||
    decide (st = Status.cancelled)

/-- A pipeline environment in which every external stage succeeds and no
producer yields an artifact file. -/
def envAllOk : AttemptEnv :=
  { metaRes := Except.ok (), thumbRes := none, mp3Hooks := [],
    mp3Res := Except.ok none, mp4Hooks := [], mp4Res := Except.ok none,
    txRes := none, txFailMsg := "Unable to fetch transcript for this video.",
    txLang := "en" }

/-- An environment whose metadata fetch raises the exception `e`. -/
def envMetaFail (e : String) : AttemptEnv :=
  { envAllOk with metaRes := Except.error e }

/-- An environment in which the MP3 producer succeeds and its output file is
found (1000 bytes). -/
def envMp3Art : AttemptEnv :=
  { envAllOk with mp3Res := Except.ok (some ("u1/j1/audio.mp3", 1000, "c3ab8ff1")) }

/-- A store-and-stats state holding one fresh job with an empty request. -/
def sysEmptyReq : Sys :=
  { job := initJob 1 1 "", others := [], stats := initStats }

/-- A store-and-stats state holding one fresh job requesting only MP3. -/
def sysMp3Req : Sys :=
  { job := initJob 1 1 "MP3", others := [], stats := initStats }

/-- Four attempts whose metadata fetch always fails. -/
def c4envs : List AttemptEnv := List.replicate 4 (envMetaFail "Network unreachable")

/-- A persisted job currently in ERROR, owned by user 1. -/
def errJob : Job :=
  { initJob 10 1 "MP3" with
      status := Status.error, progress_pct := 100,
      error_details := "boom", retry_count := 3, finished_at := some 5 }

/-- A persisted job currently RUNNING, owned by user 1. -/
def runJob : Job :=
  { initJob 11 1 "MP4" with status := Status.running, progress_pct := 42 }

/-- A persisted DONE job with one artifact, owned by user 1. -/
def doneJob : Job :=
  { initJob 12 1 "MP3" with
      status := Status.done, progress_pct := 100,
      path_mp3 := "u1/12/a.mp3", size_mp3 := some 500, finished_at := some 6 }

/-- A three-job store exercising the retry and cancel querysets. -/
def demoStore : List Job := [errJob, runJob, doneJob]

/-- A state for the storage-rescan claim: a fresh MP3 job for user 1 whose
store already holds one DONE job with a 500-byte artifact. -/
def c10sys : Sys :=
  { job := initJob 1 1 "MP3", others := [doneJob], stats := initStats }


/-- Trace states for scenario F: a fresh PENDING job already submitted to the
executor, cancelled, and then picked up by a worker. -/
def c1s0 : MState := { job := initJob 1 1 "MP3", queued := 0, active := false }

/-- `c1s0` after `enqueue_job`. -/
def c1s1 : MState := { c1s0 with queued := c1s0.queued + 1 }

/-- `c1s1` after `cancel_jobs` hits the PENDING job at time 7. -/
def c1s2 : MState := { c1s1 with job := setCancelled c1s1.job 7 }

/-- `c1s2` after the queued `_process_job` run starts on a worker. -/
def c1s3 : MState :=
  { job := startRunning c1s2.job, queued := c1s2.queued - 1, active := true }

/-- Trace states for the progress/terminal-status invariant: a running job
cancelled mid-flight whose worker then writes further progress. -/
def c2s0 : MState := { job := initJob 2 1 "MP3", queued := 0, active := false }

/-- `c2s0` after `enqueue_job`. -/
def c2s1 : MState := { c2s0 with queued := c2s0.queued + 1 }

/-- `c2s1` after a worker starts `_process_job`. -/
def c2s2 : MState :=
  { job := startRunning c2s1.job, queued := c2s1.queued - 1, active := true }

/-- `c2s2` after `cancel_jobs` hits the RUNNING job at time 7. -/
def c2s3 : MState := { c2s2 with job := setCancelled c2s2.job 7 }

/-- `c2s3` after the still-active worker writes progress 50. -/
def c2s4 : MState :=
  { c2s3 with job := progress_update c2s3.job 50 "Downloading  50.0%" }

/-- A download callback with the total size unknown (`total_bytes` falsy). -/
def c5d1 : HookInput :=
  { hstatus := "downloading", total_bytes := 0, downloaded_bytes := 10,
    percent_str := "" }

/-- A later callback with the total size known. -/
def c5d2 : HookInput :=
  { hstatus := "downloading", total_bytes := 1000, downloaded_bytes := 10,
    percent_str := "1.0%" }

/-- Trace states for hook-progress monotonicity: a running single-stage job
receiving `c5d1` then `c5d2`. -/
def c5s0 : MState := { job := initJob 3 1 "MP3", queued := 0, active := false }

/-- `c5s0` after `enqueue_job`. -/
def c5s1 : MState := { c5s0 with queued := c5s0.queued + 1 }

/-- `c5s1` after a worker starts `_process_job`. -/
def c5s2 : MState :=
  { job := startRunning c5s1.job, queued := c5s1.queued - 1, active := true }

/-- `c5s2` after the hook processes `c5d1` (base 20, stage weight 80). -/
def c5s3 : MState := { c5s2 with job := applyHook 20 80 c5d1 c5s2.job }

/-- `c5s3` after the hook processes `c5d2`. -/
def c5s4 : MState := { c5s3 with job := applyHook 20 80 c5d2 c5s3.job }

/-- Fields of a job record that `_process_job` never writes during an attempt:
the request identity (owner, id, requested kinds) and the retry counter. -/
def SameCore (a b : Job) : Prop :=
  a.requested_types = b.requested_types ∧ a.retry_count = b.retry_count ∧
    a.user = b.user ∧ a.id = b.id

theorem sameCore_refl (a : Job) : SameCore a a := ⟨rfl, rfl, rfl, rfl⟩

theorem sameCore_trans {a b c : Job} (h1 : SameCore a b) (h2 : SameCore b c) :
    SameCore a c :=
  ⟨h1.1.trans h2.1, h1.2.1.trans h2.2.1, h1.2.2.1.trans h2.2.2.1,
   h1.2.2.2.trans h2.2.2.2⟩

theorem progress_update_core (j : Job) (pct : ℚ) (msg : String) :
    SameCore (progress_update j pct msg) j := ⟨rfl, rfl, rfl, rfl⟩

theorem startRunning_core (j : Job) : SameCore (startRunning j) j :=
  ⟨rfl, rfl, rfl, rfl⟩

theorem progress_update_rt (j : Job) (pct : ℚ) (msg : String) :
    (progress_update j pct msg).requested_types = j.requested_types := rfl

theorem startRunning_rt (j : Job) :
    (startRunning j).requested_types = j.requested_types := rfl

theorem applyHook_core (cb sw : ℚ) (d : HookInput) (j : Job) :
    SameCore (applyHook cb sw d j) j := by
  unfold applyHook
  split
  · exact progress_update_core ..
  · split
    · exact progress_update_core ..
    · exact sameCore_refl j

theorem hookFold_core (cb sw : ℚ) (hooks : List HookInput) (j : Job) :
    SameCore (hooks.foldl (fun a d => applyHook cb sw d a) j) j := by
  induction hooks generalizing j with
  | nil => exact sameCore_refl j
  | cons d rest ih =>
      exact sameCore_trans (ih (applyHook cb sw d j)) (applyHook_core cb sw d j)

theorem thumbStage_core (env : AttemptEnv) (j : Job) :
    SameCore (thumbStage env j) j := by
  unfold thumbStage
  split
  · split
    · exact ⟨rfl, rfl, rfl, rfl⟩
    · exact ⟨rfl, rfl, rfl, rfl⟩
  · exact sameCore_refl j

theorem mp3Stage_core (env : AttemptEnv) (cb sw : ℚ) (j : Job) :
    SameCore (mp3Stage env cb sw j).1 j := by
  unfold mp3Stage
  split
  · have hf := hookFold_core cb sw env.mp3Hooks (progress_update j (cb + 1) "Preparing audio download...")
    have hc := sameCore_trans hf (progress_update_core j (cb + 1) "Preparing audio download...")
    split
    · exact hc
    · exact hc
    · exact sameCore_trans ⟨rfl, rfl, rfl, rfl⟩ hc
  · exact sameCore_refl j

theorem mp4Stage_core (env : AttemptEnv) (cb sw : ℚ) (j : Job) :
    SameCore (mp4Stage env cb sw j).1 j := by
  unfold mp4Stage
  split
  · have hf := hookFold_core cb sw env.mp4Hooks (progress_update j (cb + 1) "Preparing video download...")
    have hc := sameCore_trans hf (progress_update_core j (cb + 1) "Preparing video download...")
    split
    · exact hc
    · exact hc
    · exact sameCore_trans ⟨rfl, rfl, rfl, rfl⟩ hc
  · exact sameCore_refl j

theorem txStage_core (env : AttemptEnv) (cb sw : ℚ) (j : Job) :
    SameCore (txStage env cb sw j) j := by
  unfold txStage
  split
  · split
    · exact ⟨rfl, rfl, rfl, rfl⟩
    · exact ⟨rfl, rfl, rfl, rfl⟩
  · exact sameCore_refl j

theorem applyHook_status (cb sw : ℚ) (d : HookInput) (j : Job) :
    (applyHook cb sw d j).status = j.status := by
  unfold applyHook
  split
  · rfl
  · split
    · rfl
    · rfl

theorem hookFold_status (cb sw : ℚ) (hooks : List HookInput) (j : Job) :
    (hooks.foldl (fun a d => applyHook cb sw d a) j).status = j.status := by
  induction hooks generalizing j with
  | nil => rfl
  | cons d rest ih =>
      exact (ih (applyHook cb sw d j)).trans (applyHook_status cb sw d j)

theorem thumbStage_status (env : AttemptEnv) (j : Job) :
    (thumbStage env j).status = j.status := by
  unfold thumbStage
  split
  · split
    · rfl
    · rfl
  · rfl

theorem mp3Stage_status (env : AttemptEnv) (cb sw : ℚ) (j : Job) :
    (mp3Stage env cb sw j).1.status = j.status := by
  unfold mp3Stage
  split
  · have hf := hookFold_status cb sw env.mp3Hooks
      (progress_update j (cb + 1) "Preparing audio download...")
    split
    · exact hf
    · exact hf
    · exact hf
  · rfl

theorem mp4Stage_status (env : AttemptEnv) (cb sw : ℚ) (j : Job) :
    (mp4Stage env cb sw j).1.status = j.status := by
  unfold mp4Stage
  split
  · have hf := hookFold_status cb sw env.mp4Hooks
      (progress_update j (cb + 1) "Preparing video download...")
    split
    · exact hf
    · exact hf
    · exact hf
  · rfl

theorem txStage_status (env : AttemptEnv) (cb sw : ℚ) (j : Job) :
    (txStage env cb sw j).status = j.status := by
  unfold txStage
  split
  · split
    · rfl
    · rfl
  · rfl

theorem runAttempt_core (env : AttemptEnv) (now : Nat) (j0 : Job) :
    SameCore (runAttempt env now j0).1 j0 := by
  rcases hr : runAttempt env now j0 with ⟨jf, ex⟩
  dsimp only
  have hT : SameCore
      (thumbStage env (progress_update (startRunning j0) 5 "Fetching video information...")) j0 :=
    sameCore_trans (thumbStage_core env _) ⟨rfl, rfl, rfl, rfl⟩
  unfold runAttempt at hr
  dsimp only at hr
  split at hr
  · injection hr with hf hs
    subst hf
    exact ⟨rfl, rfl, rfl, rfl⟩
  · split at hr
    · injection hr with hf hs
      subst hf
      exact sameCore_trans ⟨rfl, rfl, rfl, rfl⟩ hT
    · split at hr
      next j1 e heq =>
        injection hr with hf hs
        subst hf
        have hm := congrArg Prod.fst heq
        dsimp only at hm
        rw [← hm]
        exact sameCore_trans (mp3Stage_core env _ _ _) hT
      next j1 heq =>
        have hm := congrArg Prod.fst heq
        dsimp only at hm
        have h1c : SameCore j1 j0 := by
          rw [← hm]
          exact sameCore_trans (mp3Stage_core env _ _ _) hT
        split at hr
        next j2 e2 heq2 =>
          injection hr with hf hs
          subst hf
          have hm2 := congrArg Prod.fst heq2
          dsimp only at hm2
          rw [← hm2]
          exact sameCore_trans (mp4Stage_core env _ _ _) h1c
        next j2 heq2 =>
          injection hr with hf hs
          subst hf
          have hm2 := congrArg Prod.fst heq2
          dsimp only at hm2
          have h2c : SameCore j2 j1 := by
            rw [← hm2]
            exact mp4Stage_core env _ _ _
          exact sameCore_trans (sameCore_trans (txStage_core env _ _ j2) h2c) h1c

theorem runAttempt_status_completed (env : AttemptEnv) (now : Nat) (j0 : Job)
    (h : (runAttempt env now j0).2 = AttemptExit.completed) :
    (runAttempt env now j0).1.status = Status.running := by
  rcases hr : runAttempt env now j0 with ⟨jf, ex⟩
  rw [hr] at h
  dsimp only at h ⊢
  subst h
  unfold runAttempt at hr
  dsimp only at hr
  split at hr
  · injection hr with hf hs
    exact AttemptExit.noConfusion hs
  · split at hr
    · injection hr with hf hs
      exact AttemptExit.noConfusion hs
    · split at hr
      next j1 e heq =>
        injection hr with hf hs
        exact AttemptExit.noConfusion hs
      next j1 heq =>
        split at hr
        next j2 e2 heq2 =>
          injection hr with hf hs
          exact AttemptExit.noConfusion hs
        next j2 heq2 =>
          injection hr with hf hs
          subst hf
          rw [txStage_status]
          have hm2 := congrArg Prod.fst heq2
          dsimp only at hm2
          rw [← hm2, mp4Stage_status]
          have hm := congrArg Prod.fst heq
          dsimp only at hm
          rw [← hm, mp3Stage_status, thumbStage_status]
          rfl

theorem progress_update_status (j : Job) (pct : ℚ) (msg : String) :
    (progress_update j pct msg).status = j.status := rfl

theorem runAttempt_empty_fields (env : AttemptEnv) (now : Nat) (j0 : Job)
    (h : (runAttempt env now j0).2 = AttemptExit.emptyDone) :
    (runAttempt env now j0).1.status = Status.done ∧
    (runAttempt env now j0).1.progress_pct = 100 ∧
    (runAttempt env now j0).1.message = "Completed (no media files requested)" ∧
    (runAttempt env now j0).1.finished_at = some now := by
  rcases hr : runAttempt env now j0 with ⟨jf, ex⟩
  rw [hr] at h
  dsimp only at h ⊢
  subst h
  unfold runAttempt at hr
  dsimp only at hr
  split at hr
  · injection hr with hf hs
    exact AttemptExit.noConfusion hs
  · split at hr
    · injection hr with hf hs
      subst hf
      exact ⟨rfl, rfl, rfl, rfl⟩
    · split at hr
      next j1 e heq =>
        injection hr with hf hs
        exact AttemptExit.noConfusion hs
      next j1 heq =>
        split at hr
        next j2 e2 heq2 =>
          injection hr with hf hs
          exact AttemptExit.noConfusion hs
        next j2 heq2 =>
          injection hr with hf hs
          exact AttemptExit.noConfusion hs

theorem processJob_emptyStep (mR rd now : Nat) (env : AttemptEnv)
    (rest : List AttemptEnv) (s : Sys)
    (hra : (runAttempt env now s.job).2 = AttemptExit.emptyDone) :
    processJob mR rd now (env :: rest) s =
      { s with job := (runAttempt env now s.job).1 } := by
  rcases hr : runAttempt env now s.job with ⟨j, ex⟩
  rw [hr] at hra
  dsimp only at hra ⊢
  subst hra
  simp only [processJob]
  rw [hr]

theorem processJob_successStep (mR rd now : Nat) (env : AttemptEnv)
    (rest : List AttemptEnv) (s : Sys)
    (hra : (runAttempt env now s.job).2 = AttemptExit.completed) :
    processJob mR rd now (env :: rest) s =
      { s with job := setDone (runAttempt env now s.job).1 now,
               stats := update_user_stats (runAttempt env now s.job).1.user true
                 ((runAttempt env now s.job).1 :: s.others) s.stats now } := by
  rcases hr : runAttempt env now s.job with ⟨j, ex⟩
  rw [hr] at hra
  dsimp only at hra ⊢
  subst hra
  simp only [processJob]
  rw [hr]

theorem processJob_failStep (mR rd now : Nat) (env : AttemptEnv)
    (rest : List AttemptEnv) (s : Sys) (e : String)
    (hra : (runAttempt env now s.job).2 = AttemptExit.raised e)
    (hlt : s.job.retry_count < mR) :
    processJob mR rd now (env :: rest) s =
      processJob mR rd now rest
        { s with job := setRetrying (runAttempt env now s.job).1 e rd mR } := by
  rcases hr : runAttempt env now s.job with ⟨j, ex⟩
  rw [hr] at hra
  dsimp only at hra ⊢
  subst hra
  have hrc : j.retry_count = s.job.retry_count := by
    have hc := runAttempt_core env now s.job
    rw [hr] at hc
    exact hc.2.1
  simp only [processJob]
  rw [hr]
  dsimp only
  rw [if_pos (hrc ▸ hlt)]

theorem processJob_errorStep (mR rd now : Nat) (env : AttemptEnv)
    (rest : List AttemptEnv) (s : Sys) (e : String)
    (hra : (runAttempt env now s.job).2 = AttemptExit.raised e)
    (hlt : ¬ s.job.retry_count < mR) :
    processJob mR rd now (env :: rest) s =
      { s with job := setError (runAttempt env now s.job).1 e mR now,
               stats := update_user_stats (runAttempt env now s.job).1.user false
                 ((runAttempt env now s.job).1 :: s.others) s.stats now } := by
  rcases hr : runAttempt env now s.job with ⟨j, ex⟩
  rw [hr] at hra
  dsimp only at hra ⊢
  subst hra
  have hrc : j.retry_count = s.job.retry_count := by
    have hc := runAttempt_core env now s.job
    rw [hr] at hc
    exact hc.2.1
  simp only [processJob]
  rw [hr]
  dsimp only
  rw [if_neg (hrc ▸ hlt)]

theorem userStorage_cons (user : Nat) (j : Job) (rest : List Job) :
    userStorage user (j :: rest) =
      (if j.user = user ∧ j.status = Status.done then file_size_total j else 0) +
        userStorage user rest := by
  unfold userStorage
  rw [List.filter_cons]
  split
  · next h =>
      rw [List.map_cons, List.sum_cons]
      rw [if_pos (of_decide_eq_true h)]
  · next h =>
      rw [if_neg (of_decide_eq_false (Bool.of_not_eq_true h))]
      ring

theorem processJob_allFail (mR rd now : Nat) :
    ∀ (envs : List AttemptEnv) (s : Sys),
      (∀ env ∈ envs, ∀ j : Job, j.requested_types = s.job.requested_types →
        ∃ e, (runAttempt env now j).2 = AttemptExit.raised e) →
      envs.length + s.job.retry_count = mR + 1 →
      s.job.retry_count ≤ mR →
      (processJob mR rd now envs s).job.status = Status.error ∧
      (processJob mR rd now envs s).job.retry_count = mR ∧
      (processJob mR rd now envs s).job.finished_at = some now ∧
      (∃ e, (processJob mR rd now envs s).job.error_details = e ∧
        (processJob mR rd now envs s).job.message =
          "Failed after " ++ toString mR ++ " attempts: " ++ e.take 200 ++ "...") ∧
      (processJob mR rd now envs s).stats.total_jobs = s.stats.total_jobs + 1 ∧
      (processJob mR rd now envs s).stats.failed_jobs = s.stats.failed_jobs + 1 ∧
      (processJob mR rd now envs s).stats.successful_jobs = s.stats.successful_jobs := by
  intro envs
  induction envs with
  | nil =>
      intro s hfail hlen hrc
      exact absurd hlen (by simp; omega)
  | cons env rest ih =>
      intro s hfail hlen hrc
      obtain ⟨e, he⟩ := hfail env (List.mem_cons_self env rest) s.job rfl
      have hcore := runAttempt_core env now s.job
      have hjrc : (runAttempt env now s.job).1.retry_count = s.job.retry_count :=
        hcore.2.1
      by_cases hlt : s.job.retry_count < mR
      · rw [processJob_failStep mR rd now env rest s e he hlt]
        have hrt : (setRetrying (runAttempt env now s.job).1 e rd mR).requested_types
            = s.job.requested_types := hcore.1
        have hrc2 : (setRetrying (runAttempt env now s.job).1 e rd mR).retry_count
            = s.job.retry_count + 1 := by
          show (runAttempt env now s.job).1.retry_count + 1 = s.job.retry_count + 1
          rw [hjrc]
        have := ih { s with job := setRetrying (runAttempt env now s.job).1 e rd mR }
          (by
            intro env2 hm j hjt
            exact hfail env2 (List.mem_cons_of_mem env hm) j (by rw [hjt]; exact hrt))
          (by
            dsimp only
            rw [hrc2]
            simp only [List.length_cons] at hlen
            omega)
          (by
            dsimp only
            rw [hrc2]
            omega)
        exact this
      · rw [processJob_errorStep mR rd now env rest s e he hlt]
        have hmr : s.job.retry_count = mR := by omega
        refine ⟨rfl, ?_, rfl, ⟨e, rfl, rfl⟩, rfl, ?_, rfl⟩
        · show (runAttempt env now s.job).1.retry_count = mR
          rw [hjrc, hmr]
        · rfl

theorem pyInt_mono {a b : ℚ} (h : a ≤ b) : pyInt a ≤ pyInt b := by
  unfold pyInt
  split
  · split
    · exact Int.ceil_le_ceil h
    · next ha hb =>
        refine le_trans (Int.ceil_le.mpr ?_) (Int.floor_nonneg.mpr (not_lt.mp hb))
        exact_mod_cast le_of_lt ha
  · next ha =>
      split
      · next hb => exact absurd (lt_of_le_of_lt h hb) ha
      · exact Int.floor_le_floor h

theorem hookPctLocal_mono {total d1 d2 : Nat} (ht : total ≠ 0) (h : d1 ≤ d2) :
    hookPctLocal total d1 ≤ hookPctLocal total d2 := by
  unfold hookPctLocal
  rw [if_pos ht, if_pos ht]
  apply pyInt_mono
  have hc : (0 : ℚ) < (total : ℚ) := by
    exact_mod_cast Nat.pos_of_ne_zero ht
  rw [div_le_div_iff_of_pos_right hc]
  exact_mod_cast Nat.mul_le_mul_right 100 h

theorem hookArg_mono {cb sw : ℚ} (hsw : 0 ≤ sw) {total d1 d2 : Nat}
    (ht : total ≠ 0) (h : d1 ≤ d2) :
    hookArg cb sw total d1 ≤ hookArg cb sw total d2 := by
  unfold hookArg
  apply add_le_add_left
  have hfl : (⌊(hookPctLocal total d1 : ℚ) * sw / 100⌋ : ℤ) ≤
      ⌊(hookPctLocal total d2 : ℚ) * sw / 100⌋ := by
    apply Int.floor_le_floor
    have hp : (hookPctLocal total d1 : ℚ) ≤ (hookPctLocal total d2 : ℚ) := by
      exact_mod_cast hookPctLocal_mono ht h
    have hmul : (hookPctLocal total d1 : ℚ) * sw ≤ (hookPctLocal total d2 : ℚ) * sw :=
      mul_le_mul_of_nonneg_right hp hsw
    exact div_le_div_of_nonneg_right hmul (by norm_num)
  exact_mod_cast hfl

theorem clampP_mono {a b : ℤ} (h : a ≤ b) :
    max 0 (min 99 a) ≤ max 0 (min 99 b) :=
  max_le_max le_rfl (min_le_min le_rfl h)

theorem setDone_status (j : Job) (now : Nat) : (setDone j now).status = Status.done := rfl

theorem setEmptyDone_status (j : Job) (now : Nat) :
    (setEmptyDone j now).status = Status.done := rfl

theorem setRetrying_status (j : Job) (e : String) (d m : Nat) :
    (setRetrying j e d m).status = Status.retrying := rfl

theorem setError_status (j : Job) (e : String) (m now : Nat) :
    (setError j e m now).status = Status.error := rfl

theorem setCancelled_status (j : Job) (now : Nat) :
    (setCancelled j now).status = Status.cancelled := rfl

theorem resetForRetry_status (j : Job) : (resetForRetry j).status = Status.pending := rfl

theorem startRunning_status (j : Job) : (startRunning j).status = Status.running := rfl

theorem clampP_bounds (x : ℤ) : 0 ≤ max 0 (min 99 x) ∧ max 0 (min 99 x) ≤ 100 :=
  ⟨le_max_left 0 _, max_le (by norm_num) (le_trans (min_le_left 99 x) (by norm_num))⟩

theorem clampP_le_99 (x : ℤ) : max 0 (min 99 x) ≤ 99 :=
  max_le (by norm_num) (min_le_left 99 x)

theorem applyHook_progress_bound (cb sw : ℚ) (d : HookInput) (j : Job)
    (hb : 0 ≤ j.progress_pct ∧ j.progress_pct ≤ 100) :
    0 ≤ (applyHook cb sw d j).progress_pct ∧ (applyHook cb sw d j).progress_pct ≤ 100 := by
  unfold applyHook
  split
  · exact clampP_bounds _
  · split
    · exact clampP_bounds _
    · exact hb

theorem step_progress_bound {s s' : MState} {op : Op} (h : Step s op s')
    (hb : 0 ≤ s.job.progress_pct ∧ s.job.progress_pct ≤ 100) :
    0 ≤ s'.job.progress_pct ∧ s'.job.progress_pct ≤ 100 := by
  cases h with
  | enqueue => exact hb
  | startRun hq =>
      exact ⟨by show (0 : ℤ) ≤ 1; norm_num, by show (1 : ℤ) ≤ 100; norm_num⟩
  | progressWrite pct msg hact => exact clampP_bounds _
  | hookWrite cb sw d hact => exact applyHook_progress_bound cb sw d s.job hb
  | finishDone now hact =>
      exact ⟨by show (0 : ℤ) ≤ 100; norm_num, le_refl 100⟩
  | finishEmpty now hact hsteps =>
      exact ⟨by show (0 : ℤ) ≤ 100; norm_num, le_refl 100⟩
  | markRetrying e d m hact hrc =>
      exact ⟨le_refl 0, by show (0 : ℤ) ≤ 100; norm_num⟩
  | markError e m now hact hrc =>
      exact ⟨by show (0 : ℤ) ≤ 100; norm_num, le_refl 100⟩
  | cancel now hg =>
      exact ⟨by show (0 : ℤ) ≤ 100; norm_num, le_refl 100⟩
  | retryReset hg =>
      exact ⟨le_refl 0, by show (0 : ℤ) ≤ 100; norm_num⟩

theorem step_terminal_entry {s s' : MState} {op : Op} (h : Step s op s')
    (ht : isTerminal s'.job.status = true) (hn : isTerminal s.job.status = false) :
    s'.job.progress_pct = 100 := by
  cases h with
  | enqueue =>
      dsimp only at ht
      rw [ht] at hn
      exact Bool.noConfusion hn
  | startRun hq =>
      dsimp only at ht
      rw [startRunning_status] at ht
      exact absurd ht (by decide)
  | progressWrite pct msg hact =>
      dsimp only at ht
      rw [progress_update_status] at ht
      rw [ht] at hn
      exact Bool.noConfusion hn
  | hookWrite cb sw d hact =>
      dsimp only at ht
      rw [applyHook_status] at ht
      rw [ht] at hn
      exact Bool.noConfusion hn
  | finishDone now hact => rfl
  | finishEmpty now hact hsteps => rfl
  | markRetrying e d m hact hrc =>
      dsimp only at ht
      rw [setRetrying_status] at ht
      exact absurd ht (by decide)
  | markError e m now hact hrc => rfl
  | cancel now hg => rfl
  | retryReset hg =>
      dsimp only at ht
      rw [resetForRetry_status] at ht
      exact absurd ht (by decide)

theorem step_cancelled_to_running {s s' : MState} {op : Op} (h : Step s op s')
    (hc : s.job.status = Status.cancelled) (hr : s'.job.status = Status.running) :
    op = Op.startRun := by
  cases h with
  | startRun hq => rfl
  | enqueue =>
      dsimp only at hr
      rw [hc] at hr
      exact Status.noConfusion hr
  | progressWrite pct msg hact =>
      dsimp only at hr
      rw [progress_update_status, hc] at hr
      exact Status.noConfusion hr
  | hookWrite cb sw d hact =>
      dsimp only at hr
      rw [applyHook_status, hc] at hr
      exact Status.noConfusion hr
  | finishDone now hact =>
      dsimp only at hr
      rw [setDone_status] at hr
      exact Status.noConfusion hr
  | finishEmpty now hact hsteps =>
      dsimp only at hr
      rw [setEmptyDone_status] at hr
      exact Status.noConfusion hr
  | markRetrying e d m hact hrc =>
      dsimp only at hr
      rw [setRetrying_status] at hr
      exact Status.noConfusion hr
  | markError e m now hact hrc =>
      dsimp only at hr
      rw [setError_status] at hr
      exact Status.noConfusion hr
  | cancel now hg =>
      rcases hg with h1 | h1 | h1 <;> rw [hc] at h1 <;> exact Status.noConfusion h1
  | retryReset hg =>
      dsimp only at hr
      rw [resetForRetry_status] at hr
      exact Status.noConfusion hr

theorem runAttempt_envMp3Art_completed (now : Nat) (j : Job)
    (hrt : j.requested_types = "MP3") :
    (runAttempt envMp3Art now j).2 = AttemptExit.completed := by
  have h1 : wantThumbnail "MP3" = false := by decide
  have h2 : wantMp3 "MP3" = true := by decide
  have h3 : wantMp4 "MP3" = false := by decide
  have h4 : wantTranscript "MP3" = false := by decide
  have h5 : stepsOf "MP3" = ["mp3"] := by decide
  simp [runAttempt, thumbStage, mp3Stage, mp4Stage, txStage, envMp3Art, envAllOk,
    hrt, h1, h2, h3, h4, h5, progress_update_rt, startRunning_rt]

/-- Claim C1 (counterexample): cancel on a PENDING job sets CANCELLED with
progress 100, but it does NOT prevent a later transition to RUNNING.  A
pending job is enqueued at creation; after `cancel_jobs` marks it CANCELLED,
the queued `_process_job` run still starts and unconditionally overwrites the
status with RUNNING (the first `_set` of `_process_job` has no status guard). -/
theorem C1_counterexample :
    c1s0.job.status = Status.pending ∧
    Step c1s0 Op.enqueue c1s1 ∧
    Step c1s1 (Op.cancel 7) c1s2 ∧
    c1s2.job.status = Status.cancelled ∧
    c1s2.job.progress_pct = 100 ∧
    Step c1s2 Op.startRun c1s3 ∧
    c1s3.job.status = Status.running :=
  ⟨rfl, Step.enqueue c1s0, Step.cancel c1s1 7 (Or.inl rfl), rfl, rfl,
   Step.startRun c1s2 (by decide), rfl⟩

/-- Claim C1 (amended): for every job on which cancel is called while it is
PENDING, the status becomes CANCELLED with progress 100 and `finished_at`
stamped; however the CANCELLED status is not protected — the only operation
that takes a CANCELLED job to RUNNING is the start of an already-queued
`_process_job` run, which performs an unguarded overwrite.  If no queued run
starts, no step yields RUNNING. -/
theorem C1_cancel_pending_amended :
    (∀ (s s' : MState) (now : Nat), Step s (Op.cancel now) s' →
      s'.job.status = Status.cancelled ∧ s'.job.progress_pct = 100 ∧
        s'.job.finished_at = some now) ∧
    (∀ (s s' : MState) (op : Op), Step s op s' → s.job.status = Status.cancelled →
      s'.job.status = Status.running → op = Op.startRun) := by
  constructor
  · intro s s' now h
    cases h
    exact ⟨rfl, rfl, rfl⟩
  · intro s s' op h hc hr
    exact step_cancelled_to_running h hc hr

/-- Witness for the amended C1 theorem at the concrete cancel and start
steps of the counterexample trace. -/
theorem C1_witness :
    ((c1s2.job.status = Status.cancelled ∧ c1s2.job.progress_pct = 100 ∧
        c1s2.job.finished_at = some 7) ∧ Op.startRun = Op.startRun) :=
  ⟨C1_cancel_pending_amended.1 c1s1 c1s2 7 (Step.cancel c1s1 7 (Or.inl rfl)),
   C1_cancel_pending_amended.2 c1s2 c1s3 Op.startRun
     (Step.startRun c1s2 (by decide)) rfl rfl⟩

/-- Claim C2 (counterexample): the biconditional between progress 100 and a
terminal status is violated at an observable instant.  A RUNNING job is
cancelled (CANCELLED, progress 100); the still-active worker then calls
`_progress_update`, which writes a clamped value of 50 without touching the
status, leaving a CANCELLED job with progress 50. -/
theorem C2_counterexample :
    Step c2s0 Op.enqueue c2s1 ∧
    Step c2s1 Op.startRun c2s2 ∧
    Step c2s2 (Op.cancel 7) c2s3 ∧
    Step c2s3 (Op.progressWrite 50 "Downloading  50.0%") c2s4 ∧
    isTerminal c2s4.job.status = true ∧
    c2s4.job.progress_pct = 50 ∧
    ¬ c2s4.job.progress_pct = 100 := by
  refine ⟨Step.enqueue c2s0, Step.startRun c2s1 (by decide),
    Step.cancel c2s2 7 (Or.inr (Or.inl rfl)),
    Step.progressWrite c2s3 50 "Downloading  50.0%" rfl, rfl, by decide, by decide⟩

/-- Claim C2 (amended): progress_pct stays within [0,100] along every
observable trace, every transition that establishes a terminal status writes
progress 100, and every `_progress_update` write (plain or via the download
hook) is clamped to at most 99; but "progress 100 iff terminal" does not hold
at every instant, because a progress write racing after a cancellation lowers
a CANCELLED job's progress below 100. -/
theorem C2_progress_bounds_amended :
    (∀ (s0 s : MState), 0 ≤ s0.job.progress_pct → s0.job.progress_pct ≤ 100 →
      ReachableFrom s0 s → 0 ≤ s.job.progress_pct ∧ s.job.progress_pct ≤ 100) ∧
    (∀ (s s' : MState) (op : Op), Step s op s' → isTerminal s'.job.status = true →
      isTerminal s.job.status = false → s'.job.progress_pct = 100) ∧
    (∀ (s s' : MState) (pct : ℚ) (msg : String),
      Step s (Op.progressWrite pct msg) s' → s'.job.progress_pct ≤ 99) ∧
    (∀ (s s' : MState) (cb sw : ℚ) (d : HookInput), Step s (Op.hookWrite cb sw d) s' →
      (d.hstatus = "downloading" ∨ d.hstatus = "finished") →
      s'.job.progress_pct ≤ 99) := by
  refine ⟨?_, ?_, ?_, ?_⟩
  · intro s0 s h0 h1 hreach
    replace hreach : Relation.ReflTransGen StepAny s0 s := hreach
    induction hreach with
    | refl => exact ⟨h0, h1⟩
    | tail hab hbc ih =>
        obtain ⟨op, hop⟩ := hbc
        exact step_progress_bound hop ih
  · intro s s' op h ht hn
    exact step_terminal_entry h ht hn
  · intro s s' pct msg h
    cases h
    exact clampP_le_99 _
  · intro s s' cb sw d h hd
    cases h with
    | hookWrite hact =>
        rcases hd with hd | hd
        · show (applyHook cb sw d s.job).progress_pct ≤ 99
          unfold applyHook
          rw [if_pos hd]
          exact clampP_le_99 _
        · show (applyHook cb sw d s.job).progress_pct ≤ 99
          unfold applyHook
          rw [if_neg (by rw [hd]; decide), if_pos hd]
          exact clampP_le_99 _

/-- Witness for the amended C2 theorem: the bound invariant at the initial
state and the terminal-entry write of the concrete cancel step. -/
theorem C2_witness :
    ((0 ≤ c2s0.job.progress_pct ∧ c2s0.job.progress_pct ≤ 100) ∧
      c2s3.job.progress_pct = 100) :=
  ⟨C2_progress_bounds_amended.1 c2s0 c2s0 (by decide) (by decide)
      Relation.ReflTransGen.refl,
   C2_progress_bounds_amended.2.1 c2s2 c2s3 (Op.cancel 7)
     (Step.cancel c2s2 7 (Or.inr (Or.inl rfl))) rfl rfl⟩

/-- Claim C5 (counterexample): progress writes while RUNNING are not
monotonically non-decreasing.  During one download the hook first receives a
callback with the total size unknown (the code substitutes a flat local 50%,
yielding progress 60), then a callback with the true total (local 1%,
yielding progress 20): the second write is smaller. -/
theorem C5_counterexample :
    Step c5s0 Op.enqueue c5s1 ∧
    Step c5s1 Op.startRun c5s2 ∧
    c5s2.job.status = Status.running ∧
    Step c5s2 (Op.hookWrite 20 80 c5d1) c5s3 ∧
    Step c5s3 (Op.hookWrite 20 80 c5d2) c5s4 ∧
    c5s3.job.status = Status.running ∧
    c5s4.job.status = Status.running ∧
    c5s3.job.progress_pct = 60 ∧
    c5s4.job.progress_pct = 20 ∧
    c5s4.job.progress_pct < c5s3.job.progress_pct := by
  refine ⟨Step.enqueue c5s0, Step.startRun c5s1 (by decide), rfl,
    Step.hookWrite c5s2 20 80 c5d1 rfl, Step.hookWrite c5s3 20 80 c5d2 rfl,
    rfl, rfl, ?_, ?_, ?_⟩
  · norm_num [c5s3, c5s2, c5s1, c5s0, c5d1, applyHook, hookArg, hookPctLocal,
      pyInt, progress_update, initJob, startRunning]
  · norm_num [c5s4, c5s3, c5s2, c5s1, c5s0, c5d1, c5d2, applyHook, hookArg,
      hookPctLocal, pyInt, progress_update, initJob, startRunning]
  · norm_num [c5s4, c5s3, c5s2, c5s1, c5s0, c5d1, c5d2, applyHook, hookArg,
      hookPctLocal, pyInt, progress_update, initJob, startRunning]

/-- Claim C5 (amended): the hook-driven progress value is monotone in the
reported downloaded bytes whenever the reported total is known and fixed
(so successive writes are non-decreasing under consistent reporting), and
progress is forced to 100 on entering DONE, ERROR, or CANCELLED; but when a
callback lacks the total the hook substitutes a flat 50%, so a later write
with the true total can be smaller. -/
theorem C5_hook_monotone_amended :
    (∀ (cb sw : ℚ) (total d1 d2 : Nat) (p1 p2 : String) (j1 j2 : Job),
      0 ≤ sw → total ≠ 0 → d1 ≤ d2 →
      (applyHook cb sw ⟨"downloading", total, d1, p1⟩ j1).progress_pct ≤
        (applyHook cb sw ⟨"downloading", total, d2, p2⟩ j2).progress_pct) ∧
    (∀ (s s' : MState) (op : Op), Step s op s' → isTerminal s'.job.status = true →
      isTerminal s.job.status = false → s'.job.progress_pct = 100) := by
  constructor
  · intro cb sw total d1 d2 p1 p2 j1 j2 hsw ht hd
    unfold applyHook
    rw [if_pos rfl, if_pos rfl]
    show max 0 (min 99 (pyInt (hookArg cb sw total d1))) ≤
      max 0 (min 99 (pyInt (hookArg cb sw total d2)))
    exact clampP_mono (pyInt_mono (hookArg_mono hsw ht hd))
  · intro s s' op h ht hn
    exact step_terminal_entry h ht hn

/-- Witness for the amended C5 theorem at a fixed total of 1000 bytes with
10 then 20 bytes downloaded, and at the concrete cancel step. -/
theorem C5_witness :
    ((applyHook 20 80 ⟨"downloading", 1000, 10, ""⟩ (initJob 3 1 "MP3")).progress_pct ≤
        (applyHook 20 80 ⟨"downloading", 1000, 20, ""⟩ (initJob 3 1 "MP3")).progress_pct ∧
      c2s3.job.progress_pct = 100) :=
  ⟨C5_hook_monotone_amended.1 20 80 1000 10 20 "" "" (initJob 3 1 "MP3")
      (initJob 3 1 "MP3") (by norm_num) (by norm_num) (by norm_num),
   C5_hook_monotone_amended.2 c2s2 c2s3 (Op.cancel 7)
     (Step.cancel c2s2 7 (Or.inr (Or.inl rfl))) rfl rfl⟩

/-- Claim C3 (counterexample): a job whose requested-output set is empty
completes as DONE through the early return of `_process_job`, which performs
no `_update_user_stats` call — the per-user statistics stay untouched
(total_jobs remains 0 instead of being incremented). -/
theorem C3_counterexample :
    (processJob 3 60 9 [envAllOk] sysEmptyReq).job.status = Status.done ∧
    (processJob 3 60 9 [envAllOk] sysEmptyReq).job.progress_pct = 100 ∧
    (processJob 3 60 9 [envAllOk] sysEmptyReq).stats.total_jobs = 0 ∧
    (processJob 3 60 9 [envAllOk] sysEmptyReq).stats = sysEmptyReq.stats :=
  ⟨by decide, by decide, by decide, by decide⟩

/-- Claim C3 (amended): the per-user statistics record is updated exactly
once per terminal outcome for a successful completion of a non-empty request
(total_jobs and successful_jobs increment by one) and for a
max-retries-exhausted failure (total_jobs and failed_jobs increment by one);
however a job completing DONE through the empty-request early return performs
no statistics update at all. -/
theorem C3_stats_once_amended :
    (∀ (mR rd now : Nat) (env : AttemptEnv) (s : Sys),
      (runAttempt env now s.job).2 = AttemptExit.completed →
      (processJob mR rd now [env] s).stats.total_jobs = s.stats.total_jobs + 1 ∧
      (processJob mR rd now [env] s).stats.successful_jobs =
        s.stats.successful_jobs + 1 ∧
      (processJob mR rd now [env] s).stats.failed_jobs = s.stats.failed_jobs ∧
      (processJob mR rd now [env] s).job.status = Status.done) ∧
    (∀ (mR rd now : Nat) (envs : List AttemptEnv) (s : Sys),
      (∀ env ∈ envs, ∀ j : Job, j.requested_types = s.job.requested_types →
        ∃ e, (runAttempt env now j).2 = AttemptExit.raised e) →
      envs.length + s.job.retry_count = mR + 1 → s.job.retry_count ≤ mR →
      (processJob mR rd now envs s).stats.total_jobs = s.stats.total_jobs + 1 ∧
      (processJob mR rd now envs s).stats.failed_jobs = s.stats.failed_jobs + 1 ∧
      (processJob mR rd now envs s).stats.successful_jobs =
        s.stats.successful_jobs ∧
      (processJob mR rd now envs s).job.status = Status.error) ∧
    (∀ (mR rd now : Nat) (env : AttemptEnv) (s : Sys),
      (runAttempt env now s.job).2 = AttemptExit.emptyDone →
      (processJob mR rd now [env] s).stats = s.stats ∧
      (processJob mR rd now [env] s).job.status = Status.done) := by
  refine ⟨?_, ?_, ?_⟩
  · intro mR rd now env s hc
    rw [processJob_successStep mR rd now env [] s hc]
    exact ⟨rfl, rfl, rfl, rfl⟩
  · intro mR rd now envs s hfail hlen hrc
    have h := processJob_allFail mR rd now envs s hfail hlen hrc
    exact ⟨h.2.2.2.2.1, h.2.2.2.2.2.1, h.2.2.2.2.2.2, h.1⟩
  · intro mR rd now env s he
    rw [processJob_emptyStep mR rd now env [] s he]
    exact ⟨rfl, (runAttempt_empty_fields env now s.job he).1⟩

/-- Witness for the amended C3 theorem: a successful MP3 job increments the
counters once; an empty-request job leaves the statistics record untouched. -/
theorem C3_witness :
    ((processJob 3 60 9 [envMp3Art] sysMp3Req).stats.total_jobs =
        sysMp3Req.stats.total_jobs + 1 ∧
      (processJob 3 60 9 [envAllOk] sysEmptyReq).stats = sysEmptyReq.stats) :=
  ⟨(C3_stats_once_amended.1 3 60 9 envMp3Art sysMp3Req
      (runAttempt_envMp3Art_completed 9 sysMp3Req.job rfl)).1,
   (C3_stats_once_amended.2.2 3 60 9 envAllOk sysEmptyReq (by decide)).1⟩

/-- Claim C4 (confirmed): with max_retries = 3, a job whose attempt raises
every time runs four attempts (three RETRYING transitions incrementing the
counter) and ends ERROR with retry_count = 3, finished_at stamped, the
user-visible message built from the error detail truncated to 200 characters,
and the owning user's failed_jobs counter incremented by exactly one. -/
theorem C4_error_after_exhausted_retries (rd now : Nat) (envs : List AttemptEnv)
    (s : Sys) (hrc : s.job.retry_count = 0) (hlen : envs.length = 4)
    (hfail : ∀ env ∈ envs, ∀ j : Job, j.requested_types = s.job.requested_types →
      ∃ e, (runAttempt env now j).2 = AttemptExit.raised e) :
    (processJob 3 rd now envs s).job.status = Status.error ∧
    (processJob 3 rd now envs s).job.retry_count = 3 ∧
    (processJob 3 rd now envs s).job.finished_at = some now ∧
    (∃ e, (processJob 3 rd now envs s).job.error_details = e ∧
      (processJob 3 rd now envs s).job.message =
        "Failed after " ++ toString 3 ++ " attempts: " ++ e.take 200 ++ "...") ∧
    (processJob 3 rd now envs s).stats.failed_jobs = s.stats.failed_jobs + 1 ∧
    (processJob 3 rd now envs s).stats.total_jobs = s.stats.total_jobs + 1 ∧
    (processJob 3 rd now envs s).stats.successful_jobs = s.stats.successful_jobs := by
  have h := processJob_allFail 3 rd now envs s hfail (by omega) (by omega)
  exact ⟨h.1, h.2.1, h.2.2.1, h.2.2.2.1, h.2.2.2.2.2.1, h.2.2.2.2.1,
    h.2.2.2.2.2.2⟩

/-- Witness for C4: four metadata failures on a fresh MP3 job. -/
theorem C4_witness :
    (processJob 3 60 9 c4envs sysMp3Req).job.status = Status.error ∧
    (processJob 3 60 9 c4envs sysMp3Req).job.retry_count = 3 ∧
    (processJob 3 60 9 c4envs sysMp3Req).job.finished_at = some 9 ∧
    (∃ e, (processJob 3 60 9 c4envs sysMp3Req).job.error_details = e ∧
      (processJob 3 60 9 c4envs sysMp3Req).job.message =
        "Failed after " ++ toString 3 ++ " attempts: " ++ e.take 200 ++ "...") ∧
    (processJob 3 60 9 c4envs sysMp3Req).stats.failed_jobs =
      sysMp3Req.stats.failed_jobs + 1 ∧
    (processJob 3 60 9 c4envs sysMp3Req).stats.total_jobs =
      sysMp3Req.stats.total_jobs + 1 ∧
    (processJob 3 60 9 c4envs sysMp3Req).stats.successful_jobs =
      sysMp3Req.stats.successful_jobs :=
  C4_error_after_exhausted_retries 60 9 c4envs sysMp3Req rfl rfl (by
    intro env hm j hrt
    have hm2 : env ∈ List.replicate 4 (envMetaFail "Network unreachable") := hm
    refine ⟨"Network unreachable", ?_⟩
    rw [List.eq_of_mem_replicate hm2]
    exact rfl)

/-- Claim C6 (confirmed): with max_retries = 3, a job whose attempts raise
twice and then complete on the third attempt ends DONE with retry_count = 2
— the counter is incremented once per failed attempt and the successful
completion does not reset it. -/
theorem C6_two_failures_then_success (rd now : Nat) (e1 e2 e3 : AttemptEnv)
    (s : Sys) (hrc : s.job.retry_count = 0)
    (hf1 : ∀ j : Job, j.requested_types = s.job.requested_types →
      ∃ e, (runAttempt e1 now j).2 = AttemptExit.raised e)
    (hf2 : ∀ j : Job, j.requested_types = s.job.requested_types →
      ∃ e, (runAttempt e2 now j).2 = AttemptExit.raised e)
    (hs3 : ∀ j : Job, j.requested_types = s.job.requested_types →
      (runAttempt e3 now j).2 = AttemptExit.completed) :
    (processJob 3 rd now [e1, e2, e3] s).job.status = Status.done ∧
    (processJob 3 rd now [e1, e2, e3] s).job.retry_count = 2 ∧
    (processJob 3 rd now [e1, e2, e3] s).job.progress_pct = 100 ∧
    (processJob 3 rd now [e1, e2, e3] s).job.finished_at = some now := by
  obtain ⟨a1, ha1⟩ := hf1 s.job rfl
  have hco1 := runAttempt_core e1 now s.job
  rw [processJob_failStep 3 rd now e1 [e2, e3] s a1 ha1 (by omega)]
  set s1 : Sys := { s with job := setRetrying (runAttempt e1 now s.job).1 a1 rd 3 }
  have hrt1 : s1.job.requested_types = s.job.requested_types := hco1.1
  have hrc1 : s1.job.retry_count = 1 := by
    show (runAttempt e1 now s.job).1.retry_count + 1 = 1
    rw [hco1.2.1, hrc]
  obtain ⟨a2, ha2⟩ := hf2 s1.job hrt1
  have hco2 := runAttempt_core e2 now s1.job
  rw [processJob_failStep 3 rd now e2 [e3] s1 a2 ha2 (by omega)]
  set s2 : Sys := { s1 with job := setRetrying (runAttempt e2 now s1.job).1 a2 rd 3 }
  have hrt2 : s2.job.requested_types = s.job.requested_types := by
    show (runAttempt e2 now s1.job).1.requested_types = _
    rw [hco2.1, hrt1]
  have hrc2 : s2.job.retry_count = 2 := by
    show (runAttempt e2 now s1.job).1.retry_count + 1 = 2
    rw [hco2.2.1, hrc1]
  have ha3 := hs3 s2.job hrt2
  have hco3 := runAttempt_core e3 now s2.job
  rw [processJob_successStep 3 rd now e3 [] s2 ha3]
  refine ⟨rfl, ?_, rfl, rfl⟩
  show (runAttempt e3 now s2.job).1.retry_count = 2
  rw [hco3.2.1, hrc2]

/-- Witness for C6: two metadata failures followed by a successful MP3
attempt on a fresh job. -/
theorem C6_witness :
    (processJob 3 60 9 [envMetaFail "boom", envMetaFail "boom", envMp3Art]
      sysMp3Req).job.status = Status.done ∧
    (processJob 3 60 9 [envMetaFail "boom", envMetaFail "boom", envMp3Art]
      sysMp3Req).job.retry_count = 2 ∧
    (processJob 3 60 9 [envMetaFail "boom", envMetaFail "boom", envMp3Art]
      sysMp3Req).job.progress_pct = 100 ∧
    (processJob 3 60 9 [envMetaFail "boom", envMetaFail "boom", envMp3Art]
      sysMp3Req).job.finished_at = some 9 :=
  C6_two_failures_then_success 60 9 (envMetaFail "boom") (envMetaFail "boom")
    envMp3Art sysMp3Req rfl
    (fun j hrt => ⟨"boom", rfl⟩)
    (fun j hrt => ⟨"boom", rfl⟩)
    (fun j hrt => runAttempt_envMp3Art_completed 9 j hrt)

/-- Claim C7 (confirmed): a job requesting no output kinds completes
immediately as DONE with progress 100, message indicating no media files were
requested, finished_at stamped, all artifact fields left untouched, and the
statistics record unchanged, with every producer stage skipped. -/
theorem C7_empty_outputs_done (mR rd now : Nat) (env : AttemptEnv) (s : Sys)
    (hmeta : env.metaRes = Except.ok ())
    (h1 : wantMp3 s.job.requested_types = false)
    (h2 : wantMp4 s.job.requested_types = false)
    (h3 : wantTranscript s.job.requested_types = false)
    (h4 : wantThumbnail s.job.requested_types = false) :
    (processJob mR rd now [env] s).job.status = Status.done ∧
    (processJob mR rd now [env] s).job.progress_pct = 100 ∧
    (processJob mR rd now [env] s).job.message =
      "Completed (no media files requested)" ∧
    (processJob mR rd now [env] s).job.finished_at = some now ∧
    (processJob mR rd now [env] s).job.path_mp3 = s.job.path_mp3 ∧
    (processJob mR rd now [env] s).job.size_mp3 = s.job.size_mp3 ∧
    (processJob mR rd now [env] s).job.path_mp4 = s.job.path_mp4 ∧
    (processJob mR rd now [env] s).job.size_mp4 = s.job.size_mp4 ∧
    (processJob mR rd now [env] s).job.path_txt = s.job.path_txt ∧
    (processJob mR rd now [env] s).job.size_txt = s.job.size_txt ∧
    (processJob mR rd now [env] s).job.path_txt_plain = s.job.path_txt_plain ∧
    (processJob mR rd now [env] s).job.size_txt_plain = s.job.size_txt_plain ∧
    (processJob mR rd now [env] s).job.thumbnail_path = s.job.thumbnail_path ∧
    (processJob mR rd now [env] s).job.thumbnail_size = s.job.thumbnail_size ∧
    (processJob mR rd now [env] s).stats = s.stats := by
  have hthumb : thumbStage env (progress_update (startRunning s.job) 5
      "Fetching video information...") =
      progress_update (startRunning s.job) 5 "Fetching video information..." := by
    unfold thumbStage
    rw [if_neg ?hc]
    case hc =>
      rw [progress_update_rt, startRunning_rt, h4]
      exact Bool.false_ne_true
  have hsteps : stepsOf s.job.requested_types = [] := by
    unfold stepsOf
    rw [h1, h2, h3]
    rfl
  have hrun : runAttempt env now s.job =
      (setEmptyDone (progress_update (startRunning s.job) 5
        "Fetching video information...") now, AttemptExit.emptyDone) := by
    unfold runAttempt
    rw [hmeta]
    dsimp only
    rw [hthumb]
    rw [if_pos ?hempty]
    case hempty =>
      rw [progress_update_rt, startRunning_rt, hsteps]
      rfl
  rw [processJob_emptyStep mR rd now env [] s (by rw [hrun])]
  rw [hrun]
  exact ⟨rfl, rfl, rfl, rfl, rfl, rfl, rfl, rfl, rfl, rfl, rfl, rfl, rfl, rfl,
    rfl⟩

/-- Witness for C7 at a fresh job with an empty request string. -/
theorem C7_witness :
    (processJob 3 60 9 [envAllOk] sysEmptyReq).job.status = Status.done ∧
    (processJob 3 60 9 [envAllOk] sysEmptyReq).job.progress_pct = 100 ∧
    (processJob 3 60 9 [envAllOk] sysEmptyReq).job.message =
      "Completed (no media files requested)" ∧
    (processJob 3 60 9 [envAllOk] sysEmptyReq).job.finished_at = some 9 ∧
    (processJob 3 60 9 [envAllOk] sysEmptyReq).job.path_mp3 =
      sysEmptyReq.job.path_mp3 ∧
    (processJob 3 60 9 [envAllOk] sysEmptyReq).job.thumbnail_path =
      sysEmptyReq.job.thumbnail_path := by
  have h := C7_empty_outputs_done 3 60 9 envAllOk sysEmptyReq rfl (by decide)
    (by decide) (by decide) (by decide)
  exact ⟨h.1, h.2.1, h.2.2.1, h.2.2.2.1, h.2.2.2.2.1, h.2.2.2.2.2.2.2.2.2.2.2.2.1⟩

/-- Claim C8 (confirmed): `retry_failed_jobs` resets exactly the listed jobs
owned by the user whose status is ERROR or CANCELLED — status to PENDING,
progress to 0, error detail and retry counter cleared — enqueues each of
their ids, returns the count of jobs affected, and leaves every other job
untouched and uncounted. -/
theorem C8_retry_resets_matching (user : Nat) (jobIds : List Nat)
    (store : List Job) :
    ((retry_failed_jobs user jobIds store).1.length = store.length) ∧
    ((retry_failed_jobs user jobIds store).2.2 =
      (store.filter (retryMatch user jobIds)).length) ∧
    ((retry_failed_jobs user jobIds store).2.1 =
      (store.filter (retryMatch user jobIds)).map (fun j => j.id)) ∧
    (∀ j : Job, retryMatch user jobIds j = true ↔
      (j.user = user ∧ j.id ∈ jobIds ∧
        (j.status = Status.error ∨ j.status = Status.cancelled))) ∧
    (∀ i, ∀ h1 : i < store.length,
      ∀ h2 : i < (retry_failed_jobs user jobIds store).1.length,
      (retryMatch user jobIds (store.get ⟨i, h1⟩) = true →
        (retry_failed_jobs user jobIds store).1.get ⟨i, h2⟩ =
          resetForRetry (store.get ⟨i, h1⟩)) ∧
      (retryMatch user jobIds (store.get ⟨i, h1⟩) = false →
        (retry_failed_jobs user jobIds store).1.get ⟨i, h2⟩ =
          store.get ⟨i, h1⟩)) ∧
    (∀ j : Job, (resetForRetry j).status = Status.pending ∧
      (resetForRetry j).progress_pct = 0 ∧
      (resetForRetry j).message = "Queued for retry" ∧
      (resetForRetry j).error_details = "" ∧
      (resetForRetry j).retry_count = 0 ∧
      (resetForRetry j).finished_at = none) := by
  refine ⟨by simp [retry_failed_jobs], rfl, rfl, ?_, ?_, ?_⟩
  · intro j
    simp [retryMatch, and_assoc]
  · intro i h1 h2
    constructor
    · intro hm
      show (store.map
        (fun j => if retryMatch user jobIds j then resetForRetry j else j)).get
          ⟨i, h2⟩ = _
      rw [List.get_map]
      rw [if_pos hm]
    · intro hm
      show (store.map
        (fun j => if retryMatch user jobIds j then resetForRetry j else j)).get
          ⟨i, h2⟩ = _
      rw [List.get_map]
      rw [if_neg (by rw [hm]; exact Bool.false_ne_true)]
  · intro j
    exact ⟨rfl, rfl, rfl, rfl, rfl, rfl⟩

/-- Witness for C8 on a three-job store: only the listed ERROR job of the
user is reset; a listed DONE job and an unlisted RUNNING job are untouched
and not counted. -/
theorem C8_witness :
    (retry_failed_jobs 1 [10, 12] demoStore).2.2 = 1 ∧
    (retry_failed_jobs 1 [10, 12] demoStore).1.get ⟨0, by decide⟩ =
      resetForRetry errJob ∧
    (retry_failed_jobs 1 [10, 12] demoStore).1.get ⟨1, by decide⟩ = runJob ∧
    (retry_failed_jobs 1 [10, 12] demoStore).1.get ⟨2, by decide⟩ = doneJob := by
  refine ⟨?_, ?_, ?_, ?_⟩
  · rw [(C8_retry_resets_matching 1 [10, 12] demoStore).2.1]
    decide
  · exact ((C8_retry_resets_matching 1 [10, 12] demoStore).2.2.2.2.1 0
      (by decide) (by decide)).1 (by decide)
  · exact ((C8_retry_resets_matching 1 [10, 12] demoStore).2.2.2.2.1 1
      (by decide) (by decide)).2 (by decide)
  · exact ((C8_retry_resets_matching 1 [10, 12] demoStore).2.2.2.2.1 2
      (by decide) (by decide)).2 (by decide)

/-- Claim C9 (confirmed): `cancel_jobs` overwrites exactly the listed jobs
owned by the user whose status is PENDING, RUNNING or RETRYING with status
CANCELLED, progress 100 and finished_at stamped, returns the count affected,
and is a no-op on jobs already in a terminal state. -/
theorem C9_cancel_nonterminal (user : Nat) (jobIds : List Nat) (now : Nat)
    (store : List Job) :
    ((cancel_jobs user jobIds now store).1.length = store.length) ∧
    ((cancel_jobs user jobIds now store).2 =
      (store.filter (cancelMatch user jobIds)).length) ∧
    (∀ j : Job, cancelMatch user jobIds j = true ↔
      (j.user = user ∧ j.id ∈ jobIds ∧
        (j.status = Status.pending ∨ j.status = Status.running ∨
          j.status = Status.retrying))) ∧
    (∀ j : Job, (j.status = Status.done ∨ j.status = Status.error ∨
      j.status = Status.cancelled) → cancelMatch user jobIds j = false) ∧
    (∀ i, ∀ h1 : i < store.length,
      ∀ h2 : i < (cancel_jobs user jobIds now store).1.length,
      (cancelMatch user jobIds (store.get ⟨i, h1⟩) = true →
        (cancel_jobs user jobIds now store).1.get ⟨i, h2⟩ =
          setCancelled (store.get ⟨i, h1⟩) now) ∧
      (cancelMatch user jobIds (store.get ⟨i, h1⟩) = false →
        (cancel_jobs user jobIds now store).1.get ⟨i, h2⟩ =
          store.get ⟨i, h1⟩)) ∧
    (∀ j : Job, (setCancelled j now).status = Status.cancelled ∧
      (setCancelled j now).progress_pct = 100 ∧
      (setCancelled j now).message = "Cancelled by user" ∧
      (setCancelled j now).finished_at = some now) := by
  refine ⟨by simp [cancel_jobs], rfl, ?_, ?_, ?_, ?_⟩
  · intro j
    simp [cancelMatch, and_assoc, or_assoc]
  · intro j ht
    rcases ht with h | h | h <;> simp [cancelMatch, h]
  · intro i h1 h2
    constructor
    · intro hm
      show (store.map
        (fun j => if cancelMatch user jobIds j then setCancelled j now else j)).get
          ⟨i, h2⟩ = _
      rw [List.get_map]
      rw [if_pos hm]
    · intro hm
      show (store.map
        (fun j => if cancelMatch user jobIds j then setCancelled j now else j)).get
          ⟨i, h2⟩ = _
      rw [List.get_map]
      rw [if_neg (by rw [hm]; exact Bool.false_ne_true)]
  · intro j
    exact ⟨rfl, rfl, rfl, rfl⟩

/-- Witness for C9 on the three-job store: only the listed RUNNING job is
cancelled; the listed ERROR job (already terminal) and the DONE job are
untouched and not counted. -/
theorem C9_witness :
    (cancel_jobs 1 [10, 11] 9 demoStore).2 = 1 ∧
    (cancel_jobs 1 [10, 11] 9 demoStore).1.get ⟨0, by decide⟩ = errJob ∧
    (cancel_jobs 1 [10, 11] 9 demoStore).1.get ⟨1, by decide⟩ =
      setCancelled runJob 9 ∧
    (cancel_jobs 1 [10, 11] 9 demoStore).1.get ⟨2, by decide⟩ = doneJob := by
  refine ⟨?_, ?_, ?_, ?_⟩
  · rw [(C9_cancel_nonterminal 1 [10, 11] 9 demoStore).2.1]
    decide
  · exact ((C9_cancel_nonterminal 1 [10, 11] 9 demoStore).2.2.2.2.1 0
      (by decide) (by decide)).2 (by decide)
  · exact ((C9_cancel_nonterminal 1 [10, 11] 9 demoStore).2.2.2.2.1 1
      (by decide) (by decide)).1 (by decide)
  · exact ((C9_cancel_nonterminal 1 [10, 11] 9 demoStore).2.2.2.2.1 2
      (by decide) (by decide)).2 (by decide)

/-- Claim C10 (confirmed): on successful completion the statistics update
runs while the triggering job's row still holds status RUNNING (before the
DONE write), so the storage rescan — which sums `file_size_total` only over
jobs already DONE — excludes the triggering job's artifacts; a later update,
performed after the job is DONE, includes them. -/
theorem C10_storage_excludes_triggering (mR rd now now2 : Nat)
    (env : AttemptEnv) (s : Sys)
    (hc : (runAttempt env now s.job).2 = AttemptExit.completed) :
    (processJob mR rd now [env] s).job.status = Status.done ∧
    (processJob mR rd now [env] s).stats.total_files_size =
      userStorage s.job.user s.others ∧
    (update_user_stats s.job.user true
        ((processJob mR rd now [env] s).job ::
          (processJob mR rd now [env] s).others)
        (processJob mR rd now [env] s).stats now2).total_files_size =
      file_size_total (processJob mR rd now [env] s).job +
        userStorage s.job.user s.others := by
  have hst := runAttempt_status_completed env now s.job hc
  have hco := runAttempt_core env now s.job
  rw [processJob_successStep mR rd now env [] s hc]
  refine ⟨rfl, ?_, ?_⟩
  · show userStorage (runAttempt env now s.job).1.user
      ((runAttempt env now s.job).1 :: s.others) = _
    rw [userStorage_cons]
    rw [if_neg ?hh]
    case hh =>
      rintro ⟨hu, hd⟩
      rw [hst] at hd
      exact Status.noConfusion hd
    rw [hco.2.2.1, zero_add]
  · show userStorage s.job.user
      (setDone (runAttempt env now s.job).1 now :: s.others) = _
    rw [userStorage_cons]
    rw [if_pos ?hp]
    case hp =>
      exact ⟨by
        show (runAttempt env now s.job).1.user = s.job.user
        exact hco.2.2.1, rfl⟩

/-- Witness for C10: a successful MP3 job of 1000 bytes for a user who
already has one DONE job of 500 bytes — the completion-time stats rescan sees
only the 500, and a later rescan sees 1500. -/
theorem C10_witness :
    (processJob 3 60 9 [envMp3Art] c10sys).job.status = Status.done ∧
    (processJob 3 60 9 [envMp3Art] c10sys).stats.total_files_size = 500 ∧
    (update_user_stats c10sys.job.user true
        ((processJob 3 60 9 [envMp3Art] c10sys).job ::
          (processJob 3 60 9 [envMp3Art] c10sys).others)
        (processJob 3 60 9 [envMp3Art] c10sys).stats 11).total_files_size =
      1500 := by
  have h := C10_storage_excludes_triggering 3 60 9 11 envMp3Art c10sys
    (runAttempt_envMp3Art_completed 9 c10sys.job rfl)
  refine ⟨h.1, ?_, ?_⟩
  · rw [h.2.1]
    decide
  · rw [h.2.2]
    decide
